import Mathlib

/-!
Verification of the pomlock session scheduler (src/src/pomlock/app.py)
against its natural-language specification.

The Python source is shallowly embedded: Python ints are `Int` (or `Nat`
for the 1-indexed counters, which never go below 1), floats that only
ever face interval comparisons are `ℚ`, and every side-effecting code
path is embedded as the list of externally visible events it emits.
-/

namespace Pomlock

/-- The three phase kinds of the scheduler (`"Pomodoro"`, `"Short break"`,
`"Long break"` in `run_pomodoro`). -/
inductive Phase
  | pomodoro
  | shortBreak
  | longBreak
deriving DecidableEq, Repr

/-- Scheduler counters owned by `App`: `crr_cycle`, `crr_session`,
`total_completed_sessions` (initialized to 1, 1, 0 in `App.__init__`). -/
structure SchedState where
  crr_cycle : Nat
  crr_session : Nat
  total_completed : Nat
deriving DecidableEq, Repr

/-- Initial scheduler state from `App.__init__` (app.py lines 283-285). -/
def initState : SchedState := ⟨1, 1, 0⟩

/-- Which break follows the pomodoro of the current cycle: `run_pomodoro`
sets a short break and switches to a long break when
`self.crr_cycle >= cycles` (app.py lines 620-626). -/
def breakTypeOf (cycles crr_cycle : Nat) : Phase :=
  if crr_cycle ≥ cycles then Phase.longBreak else Phase.shortBreak

/-- Counter update after the break of one cycle completes (app.py lines
666-690): when `crr_cycle >= cycles` the session is completed
(`crr_session += 1`, `total_completed_sessions += 1`, `crr_cycle = 1`),
otherwise only the cycle advances (`crr_cycle += 1`). -/
def stepCycle (cycles : Nat) (s : SchedState) : SchedState :=
  if s.crr_cycle ≥ cycles then
    ⟨1, s.crr_session + 1, s.total_completed + 1⟩
  else
    ⟨s.crr_cycle + 1, s.crr_session, s.total_completed⟩

/-- The phase sequence emitted by `n` iterations of the `while True` loop
of `run_pomodoro`: each iteration runs one pomodoro and then the break
chosen by `breakTypeOf`. -/
def phasesFrom (cycles : Nat) (s : SchedState) : Nat → List Phase
  | 0 => []
  | n + 1 =>
      Phase.pomodoro :: breakTypeOf cycles s.crr_cycle ::
        phasesFrom cycles (stepCycle cycles s) n

/-- Seconds ticked for a pomodoro phase: `pomo_s = pomo_m * 5`
(app.py line 527). -/
def pomoS (pomo_m : Int) : Int := pomo_m * 5

/-- Seconds ticked for a short break: `s_break_s = s_break_m * 5`
(app.py line 529). -/
def sBreakS (s_break_m : Int) : Int := s_break_m * 5

/-- Seconds ticked for a long break: `l_break_s = l_break_m * 5`
(app.py line 531). -/
def lBreakS (l_break_m : Int) : Int := l_break_m * 5

/-- Seconds actually ticked for one phase, as set up by `run_pomodoro`. -/
def phaseDur (p s l : Int) : Phase → Int
  | Phase.pomodoro => pomoS p
  | Phase.shortBreak => sBreakS s
  | Phase.longBreak => lBreakS l

/-- Session total budget `total_time_s` computed at session start
(app.py lines 559-560): `(((pomo_m + s_break_m) * cycles) + (l_break_m - s_break_m)) * 60`. -/
def totalTimeS (p s l : Int) (c : Nat) : Int :=
  ((p + s) * (c : Int) + (l - s)) * 60

/-- The phases of one full session: the loop iterations from `crr_cycle = 1`
until the long break completes (that is, `cycles` iterations). -/
def sessionPhases (cycles : Nat) : List Phase :=
  phasesFrom cycles initState cycles

/-- Sum of the seconds actually ticked over every phase of one session. -/
def sessionTickedSum (p s l : Int) (c : Nat) : Int :=
  ((sessionPhases c).map (phaseDur p s l)).sum

/-- Externally visible events emitted by the scheduler thread and by the
process-level exception handlers in `__main__`. -/
inductive Ev
  | disable
  | enable
  | pushBreak
  | tickRun
  | logInfo
  | logError
  | destroyWin
deriving DecidableEq, Repr

/-- The break-phase section of one `run_pomodoro` loop iteration
(app.py lines 642-663) as the list of events it emits:
`if config['block_input']: disable_input_devices()`, then
`self.queue.put({"type": "break", ...})`, then the tick threads are
started and joined, then `if config['block_input']: enable_input_devices()`.
`interrupted = true` models an exception escaping the tick/join: control
jumps to the `except Exception` handler at line 692, which only calls
`logger.error` and lets the scheduler thread end — the enable branch at
lines 662-663 is never reached. -/
def breakPhaseEvents (blockInput interrupted : Bool) : List Ev :=
  (if blockInput then [Ev.disable] else []) ++ [Ev.pushBreak] ++
    (if interrupted then [Ev.logError]
     else [Ev.tickRun] ++ (if blockInput then [Ev.enable] else []))

/-- The ways the process can leave `App()` in `__main__`
(app.py lines 709-721). -/
inductive ExitPath
  | keyboardInterrupt
  | mainException
  | normalReturn
deriving DecidableEq, Repr

/-- The events emitted by the `try/except` block around `App()` in
`__main__` (app.py lines 709-721): a `KeyboardInterrupt` runs
`logger.info("Exiting...")` and `app.destroy()`; any other exception runs
`logger.error(e)`, then `enable_input_devices()` only when
`settings['block_input']` is set, then `logger.info("Session ended")`. -/
def mainExitEvents : ExitPath → Bool → List Ev
  | ExitPath.keyboardInterrupt, _ => [Ev.logInfo, Ev.destroyWin]
  | ExitPath.mainException, blockInput =>
      [Ev.logError] ++
        (if blockInput then [Ev.logInfo, Ev.enable] else []) ++ [Ev.logInfo]
  | ExitPath.normalReturn, _ => []

/-- The per-second tick loop `timer` of `run_pomodoro` (app.py lines
573-576): `for _ in range(duration_s): progress.advance(job); sleep(1)`.
The counter starts at its current completed value and is advanced by one
in each of the `duration_s` iterations. -/
def timerLoop : Nat → Nat → Nat
  | completed, 0 => completed
  | completed, n + 1 => timerLoop (completed + 1) n

theorem timerLoop_eq (d : Nat) : ∀ completed : Nat, timerLoop completed d = completed + d := by
  induction d with
  | zero => intro c; rfl
  | succ n ih =>
      intro c
      rw [timerLoop, ih (c + 1)]
      omega

/-- The number of seconds carried by the `Break` handoff event: the queue
message `msg` is `break_s` (app.py lines 651-654), and `break_s` is the
break minutes times 5 (app.py lines 529 and 531). -/
def breakHandoffSeconds (break_m : Int) : Int := break_m * 5

/-- Modelled from the spec: the StateSink snapshot write is absent from
src/ (only its reader `waybar.py` and the `STATE_FILE` declaration in
`constants.py` exist); per the spec's external-interface section the
snapshot's `time` field is the phase's minutes. -/
def snapshotTime (break_m : Int) : Int := break_m

/-- The total seconds external consumers derive from a snapshot:
`state["time"] * 60` (waybar.py line 54). -/
def snapshotTotalSeconds (break_m : Int) : Int := snapshotTime break_m * 60

/-- The three configurable notification messages (`pomo_notify_msg`,
`break_notify_msg`, `long_break_notify_msg` in `ARGUMENTS_CONFIG`). -/
structure NotifyMsgs where
  pomo_msg : String
  break_msg : String
  long_break_msg : String
deriving DecidableEq, Repr

/-- Default messages from `ARGUMENTS_CONFIG` (app.py lines 100-120,
identical in constants.py lines 84-104). -/
def defaultNotifyMsgs : NotifyMsgs :=
  ⟨"Time for a pomodoro!", "Time for a break!", "Time for a long break!"⟩

/-- The message `run_pomodoro` fires on entering each phase: the pomodoro
branch calls `self._notify(config['pomo_notify_msg'])` (app.py line 589)
and the break branch calls `self._notify(config['break_notify_msg'])`
(app.py line 628) for both short and long breaks;
`config['long_break_notify_msg']` is never passed to `_notify`. -/
def notifyMsgFired (m : NotifyMsgs) : Phase → String
  | Phase.pomodoro => m.pomo_msg
  | Phase.shortBreak => m.break_msg
  | Phase.longBreak => m.break_msg

/-- Outcome of startup configuration validation. -/
inductive StartupResult
  | exitCode (n : Nat)
  | schedulerRuns
deriving DecidableEq, Repr

/-- The final validation of `parse_config` (app.py lines 512-521): each of
`pomodoro`, `short_break`, `long_break`, `cycles` must be a (strictly)
positive integer and the overlay opacity must lie in `[0.0, 1.0]`. In this
embedding the four fields are integers by type, matching the `isinstance
int` part of the check. -/
def validationPasses (p s l c : Int) (opacity : ℚ) : Bool :=
  decide (0 < p) && decide (0 < s) && decide (0 < l) && decide (0 < c) &&
    decide ((0 : ℚ) ≤ opacity) && decide (opacity ≤ 1)

/-- Validation outcome: `parse_config` calls `sys.exit(1)` when validation fails and otherwise
returns the config, after which the scheduler thread is started
(app.py lines 287-293 and 512-521). -/
def startupOutcome (p s l c : Int) (opacity : ℚ) : StartupResult :=
  if validationPasses p s l c opacity then StartupResult.schedulerRuns
  else StartupResult.exitCode 1

/-- Items the scheduler pushes onto `self.queue`. -/
inductive QueueItem
  | exitEv
  | breakEv (durationS : ℚ)
deriving DecidableEq, Repr

/-- What one firing of `update_overlay_timer` does. -/
inductive TimerAct
  | hide
  | display (mins secs : Int)
deriving DecidableEq, Repr

/-- One firing of `update_overlay_timer` (app.py lines 341-351):
`remaining_s = duration_s - (time() - start_time)`; when `remaining_s <= 0`
the window is withdrawn (hidden), otherwise the label shows
`divmod(int(remaining_s), 60)`. -/
def updateOverlayTimer (durationS elapsed : ℚ) : TimerAct :=
  if durationS - elapsed ≤ 0 then TimerAct.hide
  else
    TimerAct.display (⌊durationS - elapsed⌋ / 60) (⌊durationS - elapsed⌋ % 60)

/-- Actions on the presentation surface. -/
inductive SurfaceAct
  | deiconify
  | withdraw
  | destroy
deriving DecidableEq, Repr

/-- The surface actions of `update_overlay_window` (app.py lines 327-362)
over a sequence of queue items: an `exit` item destroys the window and
returns (the loop ends, later items are never consumed); a `break` item
shows the surface (`deiconify`/`mainloop`), the countdown eventually
withdraws it, and the recursive `update_overlay_window` call blocks on the
next item. -/
def runBridge : List QueueItem → List SurfaceAct
  | [] => []
  | QueueItem.exitEv :: _ => [SurfaceAct.destroy]
  | QueueItem.breakEv _ :: rest =>
      SurfaceAct.deiconify :: SurfaceAct.withdraw :: runBridge rest

/-- A CLI option's flag strings from `ARGUMENTS_CONFIG`. -/
structure ArgSpec where
  long : String
  short : Option String
deriving DecidableEq, Repr

/-- The `notify` option (app.py lines 93-99): long flag only. -/
def notifyArg : ArgSpec := ⟨"--notify", none⟩

/-- The `block_input` option (app.py lines 86-92): long flag only. -/
def blockInputArg : ArgSpec := ⟨"--block-input", none⟩

/-- The flag set collected in `parse_args` (app.py lines 365-366):
every argv token starting with `-`. -/
def cliFlags (argv : List String) : List String :=
  argv.filter (fun a => a.startsWith "-")

/-- The `was_provided` check of `parse_config` (app.py lines 473-474): the exact long
or short flag string is among the collected flags. -/
def wasProvided (flags : List String) (a : ArgSpec) : Bool :=
  flags.contains a.long ||
    (match a.short with
     | some s => flags.contains s
     | none => false)

/-- The CLI-override step for one setting (app.py lines 477-484): the
parsed value replaces the config-file/default value only when
`was_provided` holds. -/
def cliOverride {α : Type} (flags : List String) (a : ArgSpec)
    (cliVal fileVal : α) : α :=
  if wasProvided flags a then cliVal else fileVal

/-- The special case for `block_input` (app.py lines 475 and 486-487):
after the generic override, `"--no-block-input" in flags` forces
`config['block_input'] = False`. -/
def blockInputResolved (flags : List String) (cliVal fileVal : Bool) : Bool :=
  if flags.contains "--no-block-input" then false
  else cliOverride flags blockInputArg cliVal fileVal

/-- The negative flag argparse's `BooleanOptionalAction` auto-generates for
a boolean option's long flag. -/
def negFlag (long : String) : String := "--no-" ++ long.drop 2

/-- Helper for `pySplit`: walks the characters keeping the current token
reversed in the accumulator. -/
def pySplitAux : List Char → List Char → List (List Char)
  | [], acc => if acc.isEmpty then [] else [acc.reverse]
  | ch :: rest, acc =>
      if ch.isWhitespace then
        if acc.isEmpty then pySplitAux rest []
        else acc.reverse :: pySplitAux rest []
      else pySplitAux rest (ch :: acc)

/-- Python's `str.split()` with no separator (used on the timer string at
app.py line 498): split on whitespace runs, discarding empty tokens. -/
def pySplit (s : String) : List String :=
  (pySplitAux s.data []).map (fun cs => String.mk cs)

/-- Helper for `pyInt`: the digits of the literal, allowing a single
underscore between digits as Python's `int` does. The first character
handed to this function is already known to be a digit. -/
def pyNatAux : Nat → List Char → Option Nat
  | acc, [] => some acc
  | acc, ch :: rest =>
      if ch.isDigit then pyNatAux (acc * 10 + (ch.toNat - 48)) rest
      else if ch = '_' then
        match rest with
        | [] => none
        | d :: rest2 =>
            if d.isDigit then pyNatAux (acc * 10 + (d.toNat - 48)) rest2
            else none
      else none

/-- Python's `int(token)` on a whitespace-free token: an optional sign
followed by digits (single underscores allowed between digits); anything
else raises `ValueError`, modelled as `none`. -/
def pyInt (s : String) : Option Int :=
  match s.data with
  | [] => none
  | '+' :: d :: rest =>
      if d.isDigit then (pyNatAux 0 (d :: rest)).map (fun n => (n : Int))
      else none
  | '-' :: d :: rest =>
      if d.isDigit then (pyNatAux 0 (d :: rest)).map (fun n => -(n : Int))
      else none
  | d :: rest =>
      if d.isDigit then (pyNatAux 0 (d :: rest)).map (fun n => (n : Int))
      else none

/-- Python's `str.lower()` restricted to its ASCII behavior, which covers
every preset name and timer string in the configuration system. -/
def pyLower (s : String) : String := String.mk (s.data.map Char.toLower)

/-- The default presets table of `ARGUMENTS_CONFIG` (app.py lines
151-158). -/
def defaultPresets : List (String × String) :=
  [("standard", "25 5 20 4"), ("ultradian", "90 20 20 1"),
   ("fifty_ten", "50 10 10 1")]

/-- Python's `dict.get(key)` on the presets table. -/
def lookupPreset (ps : List (String × String)) (k : String) : Option String :=
  (ps.find? (fun pr => pr.1 == k)).map (fun pr => pr.2)

/-- Python's `' ' in timer_val` substring test. -/
def containsSpace (s : String) : Bool := s.data.any (fun ch => ch = ' ')

/-- Timer-string resolution (app.py lines 491-493):
`timer_val = config['timer'].lower()` and then
`config['presets'].get(timer_val, timer_val if ' ' in timer_val else None)`. -/
def resolveTimerStr (presets : List (String × String)) (timer : String) :
    Option String :=
  let tv := pyLower timer
  match lookupPreset presets tv with
  | some v => some v
  | none => if containsSpace tv then some tv else none

/-- What the timer-processing step does to the configuration. -/
inductive TimerOutcome
  | assigned (p s l c : Int)
  | exited
  | unchanged
  | skipped
deriving DecidableEq, Repr

/-- Application of a resolved timer string (app.py lines 496-508):
`values = [int(v) for v in timer_str.split()]`; exactly four values are
assigned to pomodoro/short_break/long_break/cycles, any other count runs
`sys.exit(1)`, and a `ValueError` from `int` is only logged, leaving the
previous configuration values in place. -/
def applyTimerStr (ts : String) : TimerOutcome :=
  match (pySplit ts).mapM pyInt with
  | none => TimerOutcome.unchanged
  | some vs =>
      match vs with
      | [p, s, l, c] => TimerOutcome.assigned p s l c
      | _ => TimerOutcome.exited

/-- The whole timer-processing step of `parse_config` (app.py lines
490-508): nothing happens when the timer value is neither a preset name
nor contains a space. -/
def processTimer (presets : List (String × String)) (timer : String) :
    TimerOutcome :=
  match resolveTimerStr presets timer with
  | none => TimerOutcome.skipped
  | some ts => applyTimerStr ts

/-- C1 (code bug): with `block_input` true, an uninterrupted break phase
brackets its tick with exactly one disable and one enable; but when an
exception interrupts the tick the phase trace contains the disable and no
enable, and the `KeyboardInterrupt` exit path of `__main__` never calls
enable either, so input-disable can survive process death. -/
theorem C1_enable_missing_on_interrupt :
    (breakPhaseEvents true false).count Ev.disable = 1 ∧
    (breakPhaseEvents true false).count Ev.enable = 1 ∧
    Ev.disable ∈ breakPhaseEvents true true ∧
    Ev.enable ∉ breakPhaseEvents true true ∧
    Ev.enable ∉ mainExitEvents ExitPath.keyboardInterrupt true ∧
    Ev.enable ∈ mainExitEvents ExitPath.mainException true := by
  decide

/-- C6 (code bug): the `Break` handoff event carries `minutes * 5` seconds
while the snapshot consumers use `time * 60`; for the default short break
of 5 minutes the handoff carries 25 seconds, not the 300 the snapshot
yields. -/
theorem C6_handoff_not_minutes_times_60 :
    breakHandoffSeconds 5 = 25 ∧
    snapshotTotalSeconds 5 = 300 ∧
    breakHandoffSeconds 5 ≠ snapshotTotalSeconds 5 := by
  decide

/-- C8 (code bug): entering a long break fires `break_notify_msg`, not the
configured `long_break_notify_msg`, although the configuration table
defines a distinct long-break message. -/
theorem C8_long_break_fires_break_msg :
    notifyMsgFired defaultNotifyMsgs Phase.longBreak = "Time for a break!" ∧
    defaultNotifyMsgs.long_break_msg = "Time for a long break!" ∧
    notifyMsgFired defaultNotifyMsgs Phase.longBreak ≠
      defaultNotifyMsgs.long_break_msg := by
  decide

/-- C2: after a pomodoro completes, if the cycle counter is `≥ cycles` the
next break is a long break and, on its completion, the cycle counter resets
to 1 and the session counter increments by exactly 1; otherwise the next
break is short and, on its completion, the cycle counter increments and the
session counter is unchanged. For config `{25, 5, 20, 4}` the phase
sequence over 5 completed cycles is `P,S,P,S,P,S,P,L,P,S`. -/
theorem C2_phase_transition_rule (cycles : Nat) (s : SchedState) :
    (s.crr_cycle ≥ cycles →
      breakTypeOf cycles s.crr_cycle = Phase.longBreak ∧
      stepCycle cycles s = ⟨1, s.crr_session + 1, s.total_completed + 1⟩) ∧
    (s.crr_cycle < cycles →
      breakTypeOf cycles s.crr_cycle = Phase.shortBreak ∧
      stepCycle cycles s = ⟨s.crr_cycle + 1, s.crr_session, s.total_completed⟩) ∧
    phasesFrom 4 initState 5 =
      [Phase.pomodoro, Phase.shortBreak, Phase.pomodoro, Phase.shortBreak,
       Phase.pomodoro, Phase.shortBreak, Phase.pomodoro, Phase.longBreak,
       Phase.pomodoro, Phase.shortBreak] := by
  refine ⟨?_, ?_, by decide⟩
  · intro h
    rw [breakTypeOf, if_pos h, stepCycle, if_pos h]
    exact ⟨rfl, rfl⟩
  · intro h
    have h' : ¬ s.crr_cycle ≥ cycles := by omega
    rw [breakTypeOf, if_neg h', stepCycle, if_neg h']
    exact ⟨rfl, rfl⟩

theorem C2_phase_transition_rule_witness :
    (breakTypeOf 4 4 = Phase.longBreak ∧
      stepCycle 4 ⟨4, 1, 0⟩ = ⟨1, 2, 1⟩) ∧
    (breakTypeOf 4 1 = Phase.shortBreak ∧
      stepCycle 4 ⟨1, 1, 0⟩ = ⟨2, 1, 0⟩) :=
  ⟨(C2_phase_transition_rule 4 ⟨4, 1, 0⟩).1 (by decide),
   (C2_phase_transition_rule 4 ⟨1, 1, 0⟩).2.1 (by decide)⟩

/-- C3 (code bug): the session budget `total_time_s` is computed with a
factor of 60, but every phase ticks `minutes * 5` seconds, so for the
default config `{25, 5, 20, 4}` the budget is 8100 while the seconds
actually ticked over the session's phases sum to 675 — they are not equal. -/
theorem C3_budget_mismatch :
    totalTimeS 25 5 20 4 = 8100 ∧
    sessionTickedSum 25 5 20 4 = 675 ∧
    totalTimeS 25 5 20 4 ≠ sessionTickedSum 25 5 20 4 := by
  refine ⟨by decide, by decide, by decide⟩

/-- C5: the tick loop `timer` advances the counter by exactly one per
iteration for `duration` iterations, so it always terminates with the
completed value equal to exactly `initial + duration`; the source's
cadence is fixed at one tick per second. -/
theorem C5_tick_no_drift (initial duration cadence : Nat)
    (_h : cadence ≤ duration) :
    timerLoop initial duration = initial + duration :=
  timerLoop_eq duration initial

theorem C5_tick_no_drift_witness :
    (1 : Nat) ≤ 3 ∧ timerLoop 0 3 = 0 + 3 :=
  ⟨by decide, C5_tick_no_drift 0 3 1 (by decide)⟩

theorem validationPasses_true_iff (p s l c : Int) (opacity : ℚ) :
    validationPasses p s l c opacity = true ↔
      (0 < p ∧ 0 < s ∧ 0 < l ∧ 0 < c ∧ 0 ≤ opacity ∧ opacity ≤ 1) := by
  simp [validationPasses, and_assoc]

/-- C7: startup exits with code 1 exactly when one of the four
duration/cycle fields is not strictly positive or the overlay opacity lies
outside `[0.0, 1.0]`; otherwise validation passes and the scheduler
starts. -/
theorem C7_validation_gate (p s l c : Int) (opacity : ℚ) :
    (startupOutcome p s l c opacity = StartupResult.exitCode 1 ↔
      (p ≤ 0 ∨ s ≤ 0 ∨ l ≤ 0 ∨ c ≤ 0 ∨ opacity < 0 ∨ 1 < opacity)) ∧
    (startupOutcome p s l c opacity ≠ StartupResult.exitCode 1 →
      startupOutcome p s l c opacity = StartupResult.schedulerRuns) := by
  constructor
  · constructor
    · intro h
      by_contra hno
      push_neg at hno
      have hpass : validationPasses p s l c opacity = true :=
        (validationPasses_true_iff p s l c opacity).mpr
          ⟨hno.1, hno.2.1, hno.2.2.1, hno.2.2.2.1,
           hno.2.2.2.2.1, hno.2.2.2.2.2⟩
      rw [startupOutcome, if_pos hpass] at h
      exact absurd h (by simp)
    · intro h
      have hfail : ¬ validationPasses p s l c opacity = true := by
        rw [validationPasses_true_iff]
        rintro ⟨h1, h2, h3, h4, h5, h6⟩
        rcases h with h | h | h | h | h | h
        · omega
        · omega
        · omega
        · omega
        · linarith
        · linarith
      rw [startupOutcome, if_neg hfail]
  · intro h
    rcases hv : validationPasses p s l c opacity with _ | _
    · exact absurd (by rw [startupOutcome, if_neg (by rw [hv]; simp)]) h
    · rw [startupOutcome, if_pos hv]

/-- C9: when the local break countdown reaches zero
(`remaining_s <= 0`) the surface is withdrawn — hidden, not destroyed —
and the bridge goes back to blocking on the next queue item; an `exit`
item destroys the surface and ends the loop. -/
theorem C9_hide_on_zero_destroy_on_exit (d e : ℚ) (rest : List QueueItem)
    (h : d - e ≤ 0) :
    updateOverlayTimer d e = TimerAct.hide ∧
    runBridge (QueueItem.breakEv d :: rest) =
      SurfaceAct.deiconify :: SurfaceAct.withdraw :: runBridge rest ∧
    SurfaceAct.destroy ∉ [SurfaceAct.deiconify, SurfaceAct.withdraw] ∧
    runBridge (QueueItem.exitEv :: rest) = [SurfaceAct.destroy] := by
  refine ⟨?_, rfl, by decide, rfl⟩
  rw [updateOverlayTimer, if_pos h]

theorem C9_hide_on_zero_destroy_on_exit_witness :
    (5 : ℚ) - 5 ≤ 0 ∧
      (updateOverlayTimer 5 5 = TimerAct.hide ∧
       runBridge [QueueItem.breakEv 5] =
         SurfaceAct.deiconify :: SurfaceAct.withdraw :: runBridge [] ∧
       SurfaceAct.destroy ∉ [SurfaceAct.deiconify, SurfaceAct.withdraw] ∧
       runBridge [QueueItem.exitEv] = [SurfaceAct.destroy]) :=
  ⟨by norm_num, C9_hide_on_zero_destroy_on_exit 5 5 [] (by norm_num)⟩

/-- C10: a setting is overridden only when its exact configured flag string
appears among the argv flags; the auto-generated negative form of a boolean
flag (such as `--no-notify`) is not recognized and leaves the
config-file/default value in place, except `--no-block-input`, which forces
`block_input` to false. -/
theorem C10_cli_override_exact_flags (flags : List String) (a : ArgSpec)
    (cliVal fileVal : Bool) :
    (wasProvided flags a = false → cliOverride flags a cliVal fileVal = fileVal) ∧
    (wasProvided flags a = true → cliOverride flags a cliVal fileVal = cliVal) ∧
    (flags.contains "--no-block-input" = true →
      blockInputResolved flags cliVal fileVal = false) ∧
    negFlag notifyArg.long = "--no-notify" ∧
    wasProvided [negFlag notifyArg.long] notifyArg = false ∧
    negFlag blockInputArg.long = "--no-block-input" := by
  refine ⟨?_, ?_, ?_, by decide, by decide, by decide⟩
  · intro h
    simp [cliOverride, h]
  · intro h
    simp [cliOverride, h]
  · intro h
    rw [blockInputResolved, if_pos h]

theorem C10_cli_override_exact_flags_witness :
    (wasProvided ["--no-notify", "--no-block-input"] notifyArg = false ∧
      cliOverride ["--no-notify", "--no-block-input"] notifyArg false true = true) ∧
    (["--no-notify", "--no-block-input"].contains "--no-block-input" = true ∧
      blockInputResolved ["--no-notify", "--no-block-input"] true true = false) :=
  ⟨⟨by decide,
    (C10_cli_override_exact_flags ["--no-notify", "--no-block-input"]
        notifyArg false true).1 (by decide)⟩,
   ⟨by decide,
    (C10_cli_override_exact_flags ["--no-notify", "--no-block-input"]
        notifyArg true true).2.2.1 (by decide)⟩⟩

/-- C4 counterexample: the timer string `"a b c d"` is not exactly four
integers, yet configuration resolution does not exit — the `except
ValueError` branch only logs, leaving the configuration unchanged, and the
scheduler still starts. -/
theorem C4_non_integer_timer_does_not_exit :
    processTimer defaultPresets "a b c d" = TimerOutcome.unchanged ∧
    processTimer defaultPresets "a b c d" ≠ TimerOutcome.exited := by
  decide

/-- C4 (amended): the timer string `"25 5 15 4"` resolves to
pomodoro=25, shortBreak=5, longBreak=15, cycles=4; a resolved timer string
whose whitespace-split tokens all parse as integers but whose count is not
4 exits with non-zero status before the scheduler starts; a resolved timer
string containing a non-integer token is only logged and leaves the
configuration values unchanged (the scheduler still starts). -/
theorem C4_timer_string_validation :
    processTimer defaultPresets "25 5 15 4" = TimerOutcome.assigned 25 5 15 4 ∧
    (∀ ts vs, (pySplit ts).mapM pyInt = some vs → vs.length ≠ 4 →
      applyTimerStr ts = TimerOutcome.exited) ∧
    (∀ ts, (pySplit ts).mapM pyInt = none →
      applyTimerStr ts = TimerOutcome.unchanged) := by
  refine ⟨by decide, ?_, ?_⟩
  · intro ts vs hvs hlen
    unfold applyTimerStr
    rw [hvs]
    rcases vs with _ | ⟨a, _ | ⟨b, _ | ⟨c1, _ | ⟨d1, _ | ⟨e1, tl⟩⟩⟩⟩⟩
    · rfl
    · rfl
    · rfl
    · rfl
    · exact absurd rfl hlen
    · rfl
  · intro ts h
    unfold applyTimerStr
    rw [h]

theorem C4_timer_string_validation_witness :
    ((pySplit "1 2 3").mapM pyInt = some [1, 2, 3] ∧
      ([1, 2, 3] : List Int).length ≠ 4 ∧
      applyTimerStr "1 2 3" = TimerOutcome.exited) ∧
    ((pySplit "a b c d").mapM pyInt = none ∧
      applyTimerStr "a b c d" = TimerOutcome.unchanged) :=
  ⟨⟨by decide, by decide,
    C4_timer_string_validation.2.1 "1 2 3" [1, 2, 3] (by decide) (by decide)⟩,
   ⟨by decide, C4_timer_string_validation.2.2 "a b c d" (by decide)⟩⟩

end Pomlock
